import Mathlib

/-!
Verification development for the logprep processor core
(`logprep/processor/clusterer/processor.py`,
`logprep/processor/list_comparison/rule.py`, and the pseudonymizer as
specified, exercised by `tests/unit/processor/pseudonymizer/test_pseudonymizer.py`).

Events are nested JSON-like documents.  We embed them as association
lists from string keys to values, mirroring Python dicts (keys are unique
in every event produced by the pipeline; `lookup` returns the first
binding, `setField` updates the first binding in place or appends).
-/

/-- A JSON-like value: the scalar and container shapes a log event can hold. -/
inductive Value where
  | null
  | bool (b : Bool)
  | int (n : Int)
  | str (s : String)
  | list (xs : List Value)
  | obj (kvs : List (String × Value))

/-- An event is a Python dict: string keys mapped to values. -/
abbrev Event := List (String × Value)

/-- First binding of a key, i.e. Python `event[k]` when the key is present. -/
def lookup (e : Event) (k : String) : Option Value :=
  match e with
  | [] => none
  | (k₁, v₁) :: rest => if k₁ = k then some v₁ else lookup rest k

/-- Python `k in event` for a dict. -/
def hasKey (e : Event) (k : String) : Bool :=
  (lookup e k).isSome

/-- Python `event[k] = v`: replace the first binding of `k`, or append a new one. -/
def setField (e : Event) (k : String) (v : Value) : Event :=
  match e with
  | [] => [(k, v)]
  | (k₁, v₁) :: rest => if k₁ = k then (k, v) :: rest else (k₁, v₁) :: setField rest k v

/-- Subscripting a nested value, defaulting to null where Python would raise. -/
def getItemD (e : Event) (k : String) : Value :=
  (lookup e k).getD .null

/-- Python key/member access one level below the top: `event[k1][k2]`
(defaulting to null where Python would raise a TypeError/KeyError). -/
def getItem2 (e : Event) (k₁ k₂ : String) : Value :=
  match getItemD e k₁ with
  | .obj kvs => (lookup kvs k₂).getD .null
  | _ => .null

/-- Python truthiness of a value, used by `if` on a non-boolean. -/
def truthy : Value → Bool
  | .null => false
  | .bool b => b
  | .int n => n != 0
  | .str s => s != ""
  | .list xs => !xs.isEmpty
  | .obj kvs => !kvs.isEmpty

/-- Python membership test `s in v` for the container shapes an event holds:
substring test for strings, element equality for lists (a non-string element
never equals a string), key membership for dicts.  Python raises a TypeError
on scalars; those cases are modelled as `false` and are unreachable in the
claims below. -/
def pyContains (v : Value) (s : String) : Bool :=
  match v with
  | .str t => decide (s.toList <:+: t.toList)
  | .list xs => xs.any fun x => match x with | .str t => t = s | _ => false
  | .obj kvs => kvs.any fun kv => kv.1 = s
  | _ => false

/-- A single-quote character, the quote Python `repr` puts around strings. -/
def pyQuote : String := String.singleton (Char.ofNat 39)

mutual

/-- Python `repr(x)` (strings are shown in single quotes; escaping inside
string literals, which no claim exercises, is not modelled). -/
def pyRepr : Value → String
  | .null => "None"
  | .bool true => "True"
  | .bool false => "False"
  | .int n => toString n
  | .str s => pyQuote ++ s ++ pyQuote
  | .list xs => "[" ++ pyReprList xs ++ "]"
  | .obj kvs => "\x7b" ++ pyReprObj kvs ++ "\x7d"

/-- Comma-separated `repr` of list elements. -/
def pyReprList : List Value → String
  | [] => ""
  | [x] => pyRepr x
  | x :: y :: rest => pyRepr x ++ ", " ++ pyReprList (y :: rest)

/-- Comma-separated `repr` of dict entries. -/
def pyReprObj : List (String × Value) → String
  | [] => ""
  | [kv] => pyQuote ++ kv.1 ++ pyQuote ++ ": " ++ pyRepr kv.2
  | kv :: kv₂ :: rest =>
    pyQuote ++ kv.1 ++ pyQuote ++ ": " ++ pyRepr kv.2 ++ ", " ++ pyReprObj (kv₂ :: rest)

end

/-- Python `str(x)`: the identity on strings, `repr` on everything else. -/
def pyStr : Value → String
  | .str s => s
  | v => pyRepr v

/-!
The Clusterer (`logprep/processor/clusterer/processor.py`).

`ClustererRule` and `SignaturePhaseStreaming` live outside the provided
sources, so the embedding is parametric in the rule type `R`, in the rule
matcher (`ClustererRule.matches`) and in the signature engine
(`SignaturePhaseStreaming.run` on `LogRecord(raw_text=event[message])`);
both are carried as fields of the processor state.
-/

/-- State of a `Clusterer` processor instance. -/
structure Clusterer (R : Type) where
  name : String
  output_field_name : String
  rules : List R
  events_processed : Nat
  ruleMatches : R → Event → Bool
  spsRun : Value → List R → String

/-- Construction in `Clusterer.__init__`: fresh instance with no rules and a
zero event counter; `output_field_name` defaults to `cluster_signature`. -/
def Clusterer.init (R : Type) (name : String)
    (ruleMatches : R → Event → Bool) (spsRun : Value → List R → String)
    (output_field_name : String := "cluster_signature") : Clusterer R :=
  { name := name
    output_field_name := output_field_name
    rules := []
    events_processed := 0
    ruleMatches := ruleMatches
    spsRun := spsRun }

/-- Direct transcription of `Clusterer._syslog_has_pri`. -/
def syslogHasPri (event : Event) : Bool :=
  hasKey event "syslog" && pyContains (getItemD event "syslog") "facility"
    && hasKey event "event" && pyContains (getItemD event "event") "severity"

/-- Transcription of the guard `'tags' in event and 'clusterable' in
event['tags']` inside `_is_clusterable`. -/
def tagsHasClusterable (event : Event) : Bool :=
  hasKey event "tags" && pyContains (getItemD event "tags") "clusterable"

/-- Test that the message field exists and is not null — the first two guards
of `_is_clusterable`. -/
def messagePresent (event : Event) : Bool :=
  match lookup event "message" with
  | none => false
  | some .null => false
  | some _ => true

/-- Direct transcription of `Clusterer._is_clusterable`.  The Python method
can return the raw value of `event[clusterable]`, so the result is a `Value`
whose truthiness the caller tests. -/
def isClusterable (event : Event) : Value :=
  match lookup event "message" with
  | none => .bool false
  | some .null => .bool false
  | some _ =>
    match lookup event "clusterable" with
    | some v => v
    | none =>
      if tagsHasClusterable event then .bool true
      else if syslogHasPri event then .bool true
      else .bool false

/-- Direct transcription of `Clusterer._cluster`: run the signature engine on
the raw message, prepend facility and severity joined by a space-comma-space
separator when the event is a syslog with PRI, and write the result to the
output field. -/
def Clusterer.cluster (c : Clusterer R) (event : Event) (rules : List R) : Event :=
  let cluster_signature_based_on_message := c.spsRun (getItemD event "message") rules
  let cluster_signature :=
    if syslogHasPri event then
      pyStr (getItem2 event "syslog" "facility") ++ " , "
        ++ pyStr (getItem2 event "event" "severity") ++ " , "
        ++ cluster_signature_based_on_message
    else
      cluster_signature_based_on_message
  setField event c.output_field_name (.str cluster_signature)

/-- The final signature `Clusterer._cluster` writes: the engine output on the
raw message, prefixed by facility and severity for a syslog with PRI. -/
def Clusterer.signatureFor (c : Clusterer R) (event : Event) (rules : List R) : String :=
  if syslogHasPri event then
    pyStr (getItem2 event "syslog" "facility") ++ " , "
      ++ pyStr (getItem2 event "event" "severity") ++ " , "
      ++ c.spsRun (getItemD event "message") rules
  else
    c.spsRun (getItemD event "message") rules

/-- Direct transcription of `Clusterer.process`: bump the event counter, and
when the event is clusterable collect the matching rules (in rule order) and
cluster; otherwise leave the event untouched.  The Python method mutates in
place; the embedding returns the new processor state and the new event. -/
def Clusterer.process (c : Clusterer R) (event : Event) : Clusterer R × Event :=
  let c₁ : Clusterer R := { c with events_processed := c.events_processed + 1 }
  if truthy (isClusterable event) then
    let matching_rules := c₁.rules.filter fun r => c₁.ruleMatches r event
    (c₁, c₁.cluster event matching_rules)
  else
    (c₁, event)

/-- Transcription of `Clusterer.events_processed_count`. -/
def Clusterer.events_processed_count (c : Clusterer R) : Nat :=
  c.events_processed

/-!
SHA-256 (FIPS 180-4) over byte lists.  The hashing helper the pseudonymizer
uses is not among the provided sources; the spec pins the hash family
(SHA-256, lower-hex) and the unit tests pin concrete digests, so the
algorithm itself is embedded directly.  Bytes and 32-bit words are `Nat`
with explicit truncation.
-/

/-- Truncation of a natural number to a 32-bit word. -/
def w32 (n : Nat) : Nat := n % 4294967296

/-- Right rotation of a 32-bit word by `r` positions. -/
def rotr32 (r x : Nat) : Nat := w32 ((x >>> r) ||| (x <<< (32 - r)))

/-- The 64 SHA-256 round constants of FIPS 180-4 (in decimal). -/
def sha256K : List Nat :=
  [1116352408, 1899447441, 3049323471, 3921009573, 961987163,
   1508970993, 2453635748, 2870763221, 3624381080, 310598401,
   607225278, 1426881987, 1925078388, 2162078206, 2614888103,
   3248222580, 3835390401, 4022224774, 264347078, 604807628,
   770255983, 1249150122, 1555081692, 1996064986, 2554220882,
   2821834349, 2952996808, 3210313671, 3336571891, 3584528711,
   113926993, 338241895, 666307205, 773529912, 1294757372,
   1396182291, 1695183700, 1986661051, 2177026350, 2456956037,
   2730485921, 2820302411, 3259730800, 3345764771, 3516065817,
   3600352804, 4094571909, 275423344, 430227734, 506948616,
   659060556, 883997877, 958139571, 1322822218, 1537002063,
   1747873779, 1955562222, 2024104815, 2227730452, 2361852424,
   2428436474, 2756734187, 3204031479, 3329325298]

/-- The SHA-256 initial hash state of FIPS 180-4 (in decimal). -/
def sha256H0 : List Nat :=
  [1779033703, 3144134277, 1013904242, 2773480762,
   1359893119, 2600822924, 528734635, 1541459225]

/-- Big-endian decomposition of `n` into `k` bytes. -/
def beBytes (k n : Nat) : List Nat :=
  (List.range k).map fun i => (n >>> (8 * (k - 1 - i))) % 256

/-- SHA-256 message padding: append `0x80`, zeros up to 56 mod 64, and the
bit length as an 8-byte big-endian integer. -/
def sha256Pad (msg : List Nat) : List Nat :=
  msg ++ 0x80 :: List.replicate ((119 - msg.length % 64) % 64) 0 ++ beBytes 8 (8 * msg.length)

/-- Grouping of a byte list into big-endian 32-bit words. -/
def bytesToWords : List Nat → List Nat
  | b₀ :: b₁ :: b₂ :: b₃ :: rest =>
    ((((b₀ <<< 8) ||| b₁) <<< 8 ||| b₂) <<< 8 ||| b₃) :: bytesToWords rest
  | _ => []

/-- The 64-byte blocks of a padded message. -/
def sha256Blocks (padded : List Nat) : List (List Nat) :=
  (List.range (padded.length / 64)).map fun i => (padded.drop (64 * i)).take 64

/-- Extension of the 16 block words to the 64-word message schedule. -/
def sha256Extend (ws : List Nat) : List Nat :=
  (List.range 48).foldl (fun ws j =>
    let i := j + 16
    let x := ws.getD (i - 15) 0
    let y := ws.getD (i - 2) 0
    let s0 := rotr32 7 x ^^^ rotr32 18 x ^^^ (x >>> 3)
    let s1 := rotr32 17 y ^^^ rotr32 19 y ^^^ (y >>> 10)
    ws ++ [w32 (ws.getD (i - 16) 0 + s0 + ws.getD (i - 7) 0 + s1)]) ws

/-- One SHA-256 compression of a 64-byte block into the running state. -/
def sha256Compress (hs : List Nat) (block : List Nat) : List Nat :=
  let ws := sha256Extend (bytesToWords block)
  let st := (List.range 64).foldl (fun st i =>
    match st with
    | [a, b, c, d, e, f, g, h] =>
      let S1 := rotr32 6 e ^^^ rotr32 11 e ^^^ rotr32 25 e
      let ch := (e &&& f) ^^^ ((e ^^^ 0xffffffff) &&& g)
      let temp1 := w32 (h + S1 + ch + sha256K.getD i 0 + ws.getD i 0)
      let S0 := rotr32 2 a ^^^ rotr32 13 a ^^^ rotr32 22 a
      let maj := (a &&& b) ^^^ (a &&& c) ^^^ (b &&& c)
      let temp2 := w32 (S0 + maj)
      [w32 (temp1 + temp2), a, b, c, w32 (d + temp1), e, f, g]
    | other => other) hs
  List.zipWith (fun x y => w32 (x + y)) hs st

/-- The SHA-256 digest (32 bytes) of a byte list. -/
def sha256 (msg : List Nat) : List Nat :=
  (((sha256Blocks (sha256Pad msg)).foldl sha256Compress sha256H0).map (beBytes 4)).flatten

/-- Lower-case hex digit for a value below 16. -/
def hexDigit (n : Nat) : String :=
  ["0", "1", "2", "3", "4", "5", "6", "7", "8", "9", "a", "b", "c", "d", "e", "f"].getD n "0"

/-- Lower-case hex rendering of a byte list. -/
def bytesToHex (bs : List Nat) : String :=
  String.join (bs.map fun b => hexDigit (b / 16) ++ hexDigit (b % 16))

/-- UTF-8 encoding of a single character. -/
def utf8Char (c : Char) : List Nat :=
  let n := c.toNat
  if n < 128 then [n]
  else if n < 2048 then [192 ||| (n >>> 6), 128 ||| (n &&& 63)]
  else if n < 65536 then [224 ||| (n >>> 12), 128 ||| ((n >>> 6) &&& 63), 128 ||| (n &&& 63)]
  else [240 ||| (n >>> 18), 128 ||| ((n >>> 12) &&& 63), 128 ||| ((n >>> 6) &&& 63),
        128 ||| (n &&& 63)]

/-- UTF-8 encoding of a string as a byte list. -/
def utf8 (s : String) : List Nat := (s.toList.map utf8Char).flatten

/-- Modelled from the spec: `H(x) = lowerhex(SHA256(salt_bytes || utf8(x)))`,
the pseudonym hash exactly as the specification words it — salt bytes first,
then the cleartext. -/
def hashSaltThenText (salt x : String) : String :=
  bytesToHex (sha256 (utf8 salt ++ utf8 x))

/-- The pseudonym hash that reproduces every digest asserted by
`tests/unit/processor/pseudonymizer/test_pseudonymizer.py`: lower-hex SHA-256
of the UTF-8 cleartext followed by the salt bytes. -/
def hashTextThenSalt (salt x : String) : String :=
  bytesToHex (sha256 (utf8 x ++ utf8 salt))

/-!
The Pseudonymizer.  Its processor module is not among the provided sources
(only its unit tests are), so the event-processing pipeline below is
modelled from the spec, with every concrete digest cross-checked against
the expected values asserted in
`tests/unit/processor/pseudonymizer/test_pseudonymizer.py`.
-/

/-- The marker a pseudonymized value is wrapped in: `<pseudonym:HEX>`. -/
def pseudonymMarker (h : String) : String := "<pseudonym:" ++ h ++ ">"

/-- Lower-case hexadecimal digit test. -/
def isHexDigit (c : Char) : Bool :=
  (48 ≤ c.toNat && c.toNat ≤ 57) || (97 ≤ c.toNat && c.toNat ≤ 102)

/-- Modelled from the spec: the pseudonym marker syntax
`<pseudonym:[0-9a-f]\x7b64\x7d>`; a field value of exactly this shape has
already been fully replaced and is not re-processed. -/
def isPseudonymMarker (s : String) : Bool :=
  let cs := s.toList
  cs.length = 76 && cs.take 11 = "<pseudonym:".toList
    && ((cs.drop 11).take 64).all isHexDigit && cs.drop 75 = [Char.ofNat 62]

/-- The pseudonym cache: pseudonym strings mapped to their last emission
timestamp (an abstract clock reading). -/
abbrev PseudoCache := List (String × Nat)

/-- Timestamp stored for a pseudonym, if any. -/
def cacheLookup (cache : PseudoCache) (p : String) : Option Nat :=
  match cache with
  | [] => none
  | (p₁, t₁) :: rest => if p₁ = p then some t₁ else cacheLookup rest p

/-- Record (or refresh) the emission time of a pseudonym. -/
def cacheInsert (cache : PseudoCache) (p : String) (t : Nat) : PseudoCache :=
  match cache with
  | [] => [(p, t)]
  | (p₁, t₁) :: rest => if p₁ = p then (p, t) :: rest else (p₁, t₁) :: cacheInsert rest p t

/-- Modelled from the spec: a cached pseudonym suppresses emission exactly
when its entry age is at most the retention window. -/
def cacheFresh (cache : PseudoCache) (p : String) (now retention : Nat) : Bool :=
  match cacheLookup cache p with
  | some t => now - t ≤ retention
  | none => false

/-- A pseudonym record: the side-channel object emitted for a newly
pseudonymized cleartext. -/
abbrev PseudonymRecord := List (String × String)

/-- Modelled from the spec: pseudonymization of one cleartext through the
hash-and-cache pipeline.  Empty cleartext is skipped outright; otherwise the
value is replaced by the marker, and a record with keys `pseudonym` and
`origin` is emitted only when the cache holds no fresh entry, in which case
the cache records the emission time.  `origin` is the hybrid-encryption
envelope, abstracted as a function parameter. -/
def pseudonymizeValue (salt : String) (origin : String → String) (retention now : Nat)
    (cache : PseudoCache) (x : String) : String × List PseudonymRecord × PseudoCache :=
  if x = "" then (x, [], cache)
  else
    let p := hashTextThenSalt salt x
    if cacheFresh cache p now retention then
      (pseudonymMarker p, [], cache)
    else
      (pseudonymMarker p, [[("pseudonym", p), ("origin", origin x)]], cacheInsert cache p now)

/-- Modelled from the spec: a filter expression is an immutable tree of
And/Or/Not/FieldEquals/FieldMatches nodes over dotted paths; the regex of a
FieldMatches node is abstracted as a string predicate. -/
inductive FilterExpr where
  | fieldEquals (path : List String) (v : Value)
  | fieldMatches (path : List String) (pred : String → Bool)
  | and (a b : FilterExpr)
  | or (a b : FilterExpr)
  | not (a : FilterExpr)

mutual

/-- Structural equality of values (Python `==` restricted to the shapes that
occur in events; the numeric `True == 1` coercion is not modelled). -/
def Value.beq : Value → Value → Bool
  | .null, .null => true
  | .bool a, .bool b => a = b
  | .int a, .int b => a = b
  | .str a, .str b => a = b
  | .list xs, .list ys => Value.beqList xs ys
  | .obj xs, .obj ys => Value.beqObj xs ys
  | _, _ => false

/-- Elementwise equality of value lists. -/
def Value.beqList : List Value → List Value → Bool
  | [], [] => true
  | x :: xs, y :: ys => Value.beq x y && Value.beqList xs ys
  | _, _ => false

/-- Entrywise equality of key/value lists. -/
def Value.beqObj : List (String × Value) → List (String × Value) → Bool
  | [], [] => true
  | kv :: xs, lw :: ys => kv.1 = lw.1 && Value.beq kv.2 lw.2 && Value.beqObj xs ys
  | _, _ => false

end

/-- Value of a dotted path inside an event. -/
def lookupPath (e : Event) : List String → Option Value
  | [] => none
  | [k] => lookup e k
  | k :: rest =>
    match lookup e k with
    | some (.obj kvs) => lookupPath kvs rest
    | _ => none

/-- Update of a dotted path inside an event (no-op when an intermediate node
is missing, mirroring the skip on absent paths). -/
def setFieldPath (e : Event) : List String → Value → Event
  | [], _ => e
  | [k], v => setField e k v
  | k :: rest, v =>
    match lookup e k with
    | some (.obj kvs) => setField e k (.obj (setFieldPath kvs rest v))
    | _ => e

/-- Evaluation of a filter expression over an event. -/
def FilterExpr.eval (e : Event) : FilterExpr → Bool
  | .fieldEquals path v =>
    match lookupPath e path with
    | some w => Value.beq w v
    | none => false
  | .fieldMatches path pred =>
    match lookupPath e path with
    | some (.str s) => pred s
    | _ => false
  | .and a b => a.eval e && b.eval e
  | .or a b => a.eval e || b.eval e
  | .not a => !a.eval e

/-- Modelled from the spec: a pseudonymizer rule bundles a filter with the
dotted paths it pseudonymizes.  The claims below exercise the keyword
`RE_WHOLE_FIELD` — a regex with no capture groups covering the whole value —
so each listed path is pseudonymized whole-field. -/
structure PseudoRule where
  filter : FilterExpr
  pseudonymize : List (List String)

/-- Modelled from the spec: whole-field processing of one dotted path.  An
absent path (or a non-string value) is skipped; a value that is already a
pseudonym marker was fully replaced by an earlier rule and is not
re-processed; otherwise the whole value goes through the hash-and-cache
pipeline and the field is overwritten with the marker. -/
def processField (salt : String) (origin : String → String) (retention now : Nat)
    (st : Event × List PseudonymRecord × PseudoCache) (path : List String) :
    Event × List PseudonymRecord × PseudoCache :=
  let (event, records, cache) := st
  match lookupPath event path with
  | some (.str x) =>
    if isPseudonymMarker x then (event, records, cache)
    else
      let (repl, recs, cache₁) := pseudonymizeValue salt origin retention now cache x
      (setFieldPath event path (.str repl), records ++ recs, cache₁)
  | _ => (event, records, cache)

/-- Modelled from the spec: a rule whose filter matches the (current) event
processes its declared fields in order; a non-matching rule changes nothing. -/
def applyRule (salt : String) (origin : String → String) (retention now : Nat)
    (st : Event × List PseudonymRecord × PseudoCache) (rule : PseudoRule) :
    Event × List PseudonymRecord × PseudoCache :=
  if rule.filter.eval st.1 then
    rule.pseudonymize.foldl (processField salt origin retention now) st
  else st

/-- Modelled from the spec: `_pseudonymize_event` applies all specific rules
first, then all generic rules, each class in insertion order, threading the
event, the emitted records and the cache. -/
def pseudonymizeEvent (salt : String) (origin : String → String) (retention now : Nat)
    (specific generic : List PseudoRule) (cache : PseudoCache) (event : Event) :
    Event × List PseudonymRecord × PseudoCache :=
  (specific ++ generic).foldl (applyRule salt origin retention now) (event, [], cache)

/-!
The URL pathway, modelled from the spec: a URL-marked field is decomposed
into parts (the registrable domain is fixed by the public-suffix list, an
external artifact, so the decomposition itself is taken as given), the
privacy-bearing parts are pseudonymized independently, and the URL string is
reassembled around the untouched structural elements.
-/

/-- Modelled from the spec: the decomposition of one URL.  `registrable_domain`
includes the TLD; `path` omits its leading slash; `query` is a key/value list. -/
structure UrlParts where
  scheme : Option String
  userinfo : Option String
  subdomain : Option String
  registrable_domain : String
  port : Option Nat
  path : Option String
  query : List (String × String)
  fragment : Option String

/-- Modelled from the spec: pseudonymization of one URL sub-element through
the hash pipeline (empty cleartext is skipped). -/
def pseudoPart (salt s : String) : String :=
  if s = "" then s else pseudonymMarker (hashTextThenSalt salt s)

/-- Modelled from the spec: userinfo, subdomain, path, each query value and
the fragment are pseudonymized independently; scheme, registrable domain,
TLD, port and query keys are left as they are. -/
def pseudonymizeUrlParts (salt : String) (u : UrlParts) : UrlParts :=
  { u with
    userinfo := u.userinfo.map (pseudoPart salt)
    subdomain := u.subdomain.map (pseudoPart salt)
    path := u.path.map (pseudoPart salt)
    query := u.query.map fun kv => (kv.1, pseudoPart salt kv.2)
    fragment := u.fragment.map (pseudoPart salt) }

/-- Modelled from the spec: reassembly of a URL from its parts with all the
structural separators (`://`, `@`, `.`, `:`, `/`, `?`, `&`, `=`, `#`). -/
def buildUrl (u : UrlParts) : String :=
  (match u.scheme with | some sc => sc ++ "://" | none => "")
    ++ (match u.userinfo with | some ui => ui ++ "@" | none => "")
    ++ (match u.subdomain with | some sd => sd ++ "." | none => "")
    ++ u.registrable_domain
    ++ (match u.port with | some p => ":" ++ toString p | none => "")
    ++ (match u.path with | some pa => "/" ++ pa | none => "")
    ++ (match u.query with
        | [] => ""
        | q => "?" ++ String.intercalate "&" (q.map fun kv => kv.1 ++ "=" ++ kv.2))
    ++ (match u.fragment with | some f => "#" ++ f | none => "")

/-!
Clusterer rule loading (`Clusterer._load_rules_from_file` and
`add_rules_from_directory`) and the error taxonomy of the spec.
-/

/-- The rule-loading error taxonomy: `InvalidRuleDefinitionError` carries the
description of malformed rule content; `InvalidRuleFileError` names the
processor and the offending rule file (its constructor arguments in
`Clusterer._load_rules_from_file`). -/
inductive LoadError where
  | invalidRuleDefinition (msg : String)
  | invalidRuleFile (processor path : String)
deriving DecidableEq

/-- Direct transcription of `Clusterer._load_rules_from_file`: the outcome of
`ClustererRule.create_rules_from_file` (whose module is not among the provided
sources, hence passed in) is forwarded, except that an
`InvalidRuleDefinitionError` is caught and re-raised as
`InvalidRuleFileError(self._name, path)` chained from it. -/
def loadRulesFromFile (R : Type) (name path : String)
    (created : Except LoadError (List R)) : Except LoadError (List R) :=
  match created with
  | .error (.invalidRuleDefinition _) => .error (.invalidRuleFile name path)
  | other => other

/-!
The list_comparison rule (`logprep/processor/list_comparison/rule.py`).
-/

/-- A `ListComparisonRule` as built by its `__init__`: a filter (of abstract
type `F`), the comparison set of (file basename, element) pairs accumulated
from the configured list files, and the two configured field names. -/
structure ListComparisonRule (F : Type) where
  filter : F
  compare_set : List (String × String)
  check_field : String
  output_field : String

/-- Python set equality: both sides hold the same members. -/
def pySetEq (a b : List (String × String)) : Prop := ∀ x, x ∈ a ↔ x ∈ b

/-- Direct transcription of `ListComparisonRule.__eq__`: the filters are
equal and the comparison sets are equal; `check_field` and `output_field`
are not compared. -/
def ListComparisonRule.eq (r₁ r₂ : ListComparisonRule F) : Prop :=
  r₁.filter = r₂.filter ∧ pySetEq r₁.compare_set r₂.compare_set

/-- Modelled from the spec: `__hash__` is `hash(repr(self))` and the base
rule `__repr__` (not among the provided sources) renders the rule by content
— the filter and the comparison set.  A set rendering cannot depend on
insertion order, so the members are shown deduplicated and sorted. -/
def ListComparisonRule.reprStr (fRepr : F → String) (r : ListComparisonRule F) : String :=
  fRepr r.filter ++ ": "
    ++ String.intercalate ", "
      (((r.compare_set.map fun kv => kv.1 ++ "/" ++ kv.2).toFinset).sort (· ≤ ·))

/-- Transcription of `ListComparisonRule.__hash__` over an abstract Python
string hash. -/
def ListComparisonRule.pyHash (hashStr : String → Nat) (fRepr : F → String)
    (r : ListComparisonRule F) : Nat :=
  hashStr (r.reprStr fRepr)

/-!
Helper lemmas about the event model.
-/

/-- Writing a key makes it readable. -/
theorem lookup_setField_self (e : Event) (k : String) (v : Value) :
    lookup (setField e k v) k = some v := by
  induction e with
  | nil => simp [setField, lookup]
  | cons kv rest ih =>
    obtain ⟨k₁, v₁⟩ := kv
    by_cases h : k₁ = k <;> simp [setField, lookup, h, ih]

/-- Writing a key leaves every other key unchanged. -/
theorem lookup_setField_ne (e : Event) (k k₂ : String) (v : Value) (h : k₂ ≠ k) :
    lookup (setField e k v) k₂ = lookup e k₂ := by
  induction e with
  | nil => simp [setField, lookup, Ne.symm h]
  | cons kv rest ih =>
    obtain ⟨k₁, v₁⟩ := kv
    by_cases h₁ : k₁ = k <;> by_cases h₂ : k₁ = k₂ <;>
      simp_all [setField, lookup]

/-- The event component of `process` in terms of the clusterability gate. -/
theorem clusterer_process_snd (R : Type) (c : Clusterer R) (event : Event) :
    (c.process event).2 =
      if truthy (isClusterable event) then
        c.cluster event (c.rules.filter fun r => c.ruleMatches r event)
      else event := by
  unfold Clusterer.process
  split <;> rfl

/-- The write `_cluster` performs, named by the signature it stores. -/
theorem clusterer_cluster_eq_setField (R : Type) (c : Clusterer R) (event : Event)
    (rules : List R) :
    c.cluster event rules
      = setField event c.output_field_name (.str (c.signatureFor event rules)) := by
  unfold Clusterer.cluster Clusterer.signatureFor
  split <;> rfl

/-- The third arm of `_is_clusterable`, once a non-null message exists. -/
theorem isClusterable_of_message (event : Event) (h : messagePresent event = true) :
    isClusterable event =
      match lookup event "clusterable" with
      | some v => v
      | none =>
        if tagsHasClusterable event then .bool true
        else if syslogHasPri event then .bool true
        else .bool false := by
  unfold isClusterable messagePresent at *
  rcases hm : lookup event "message" with _ | m
  · rw [hm] at h; cases h
  · rw [hm] at h
    cases m <;> simp_all

/-- C1: `Clusterer.process(event)` sets `event[output_field]` (named
`cluster_signature` by default at construction) to the composed signature,
leaving every other key unchanged, exactly when the event is clusterable; a
non-clusterable event comes back entirely unchanged, with no
`cluster_signature` field added. -/
theorem clusterer_process_mutation (R : Type) (c : Clusterer R) (event : Event) :
    (truthy (isClusterable event) = false → (c.process event).2 = event)
    ∧ (truthy (isClusterable event) = true →
        (c.process event).2
          = setField event c.output_field_name
              (.str (c.signatureFor event (c.rules.filter fun r => c.ruleMatches r event)))
        ∧ lookup (c.process event).2 c.output_field_name
            = some (.str (c.signatureFor event (c.rules.filter fun r => c.ruleMatches r event)))
        ∧ ∀ k, k ≠ c.output_field_name → lookup (c.process event).2 k = lookup event k)
    ∧ ∀ (name : String) (rm : R → Event → Bool) (sps : Value → List R → String),
        (Clusterer.init R name rm sps).output_field_name = "cluster_signature" := by
  refine ⟨fun h => ?_, fun h => ?_, fun _ _ _ => rfl⟩
  · rw [clusterer_process_snd, h]
    simp
  · rw [clusterer_process_snd, h]
    simp only [if_true]
    rw [clusterer_cluster_eq_setField]
    exact ⟨rfl, lookup_setField_self .., fun k hk => lookup_setField_ne _ _ _ _ hk⟩

/-- Witness for C1: a non-clusterable event is unchanged; a clusterable event
gets the engine output written to `cluster_signature`. -/
theorem clusterer_process_mutation_witness :
    (Clusterer.process
        { name := "test", output_field_name := "cluster_signature", rules := []
          events_processed := 0, ruleMatches := fun (_ : Unit) _ => true
          spsRun := fun _ _ => "SIG" }
        [("message", .str "m")]).2 = [("message", .str "m")]
    ∧ lookup (Clusterer.process
        { name := "test", output_field_name := "cluster_signature", rules := []
          events_processed := 0, ruleMatches := fun (_ : Unit) _ => true
          spsRun := fun _ _ => "SIG" }
        [("message", .str "m"), ("clusterable", .bool true)]).2 "cluster_signature"
      = some (.str "SIG") :=
  ⟨(clusterer_process_mutation Unit
      { name := "test", output_field_name := "cluster_signature", rules := []
        events_processed := 0, ruleMatches := fun (_ : Unit) _ => true
        spsRun := fun _ _ => "SIG" }
      [("message", .str "m")]).1 rfl,
   ((clusterer_process_mutation Unit
      { name := "test", output_field_name := "cluster_signature", rules := []
        events_processed := 0, ruleMatches := fun (_ : Unit) _ => true
        spsRun := fun _ _ => "SIG" }
      [("message", .str "m"), ("clusterable", .bool true)]).2.1 rfl).2.1⟩

/-- C2: the clusterability gate evaluates its guards in short-circuit order —
a missing or null message vetoes everything; otherwise a present
`clusterable` key is returned as-is before the tag check and before syslog
inference; otherwise a `clusterable` tag wins; otherwise syslog-with-PRI
wins; otherwise the event is not clusterable. -/
theorem clusterer_is_clusterable_order (event : Event) :
    ((lookup event "message" = none ∨ lookup event "message" = some .null) →
        isClusterable event = .bool false)
    ∧ (messagePresent event = true →
        (∀ v, lookup event "clusterable" = some v → isClusterable event = v)
        ∧ (lookup event "clusterable" = none →
            (tagsHasClusterable event = true → isClusterable event = .bool true)
            ∧ (tagsHasClusterable event = false → syslogHasPri event = true →
                isClusterable event = .bool true)
            ∧ (tagsHasClusterable event = false → syslogHasPri event = false →
                isClusterable event = .bool false))) := by
  constructor
  · intro h
    rcases h with h | h <;> simp [isClusterable, h]
  · intro hm
    rw [isClusterable_of_message event hm]
    refine ⟨fun v hv => by rw [hv], fun hnone => ?_⟩
    rw [hnone]
    exact ⟨fun ht => by simp [ht], fun ht hs => by simp [ht, hs], fun ht hs => by simp [ht, hs]⟩

/-- Witness for C2: with both a `clusterable` key and a `clusterable` tag
present, the key's value (here the integer 7) is returned unchanged. -/
theorem clusterer_is_clusterable_order_witness :
    isClusterable
        [("message", .str "m"), ("clusterable", .int 7),
         ("tags", .list [.str "clusterable"])] = .int 7 :=
  ((clusterer_is_clusterable_order
      [("message", .str "m"), ("clusterable", .int 7),
       ("tags", .list [.str "clusterable"])]).2 rfl).1 (.int 7) rfl

/-- C3: for a clusterable syslog-with-PRI event the stored signature is the
string form of the facility, a space-comma-space separator, the string form
of the severity, another separator, and the engine output on the message;
without syslog-with-PRI the stored signature is exactly the engine output. -/
theorem clusterer_syslog_signature (R : Type) (c : Clusterer R) (event : Event)
    (h : truthy (isClusterable event) = true) :
    (syslogHasPri event = true →
        lookup (c.process event).2 c.output_field_name
          = some (.str (pyStr (getItem2 event "syslog" "facility") ++ " , "
              ++ pyStr (getItem2 event "event" "severity") ++ " , "
              ++ c.spsRun (getItemD event "message")
                  (c.rules.filter fun r => c.ruleMatches r event))))
    ∧ (syslogHasPri event = false →
        lookup (c.process event).2 c.output_field_name
          = some (.str (c.spsRun (getItemD event "message")
              (c.rules.filter fun r => c.ruleMatches r event)))) := by
  rw [clusterer_process_snd, h]
  simp only [if_true]
  rw [clusterer_cluster_eq_setField]
  constructor
  · intro hs
    rw [lookup_setField_self]
    unfold Clusterer.signatureFor
    rw [hs]
    simp
  · intro hs
    rw [lookup_setField_self]
    unfold Clusterer.signatureFor
    rw [hs]
    simp

/-- Witness for C3: facility 16 and severity 5 compose as `16 , 5 , S`. -/
theorem clusterer_syslog_signature_witness :
    lookup (Clusterer.process
        { name := "test", output_field_name := "cluster_signature", rules := []
          events_processed := 0, ruleMatches := fun (_ : Unit) _ => true
          spsRun := fun _ _ => "S" }
        [("message", .str "raw"),
         ("syslog", .obj [("facility", .int 16)]),
         ("event", .obj [("severity", .int 5)])]).2 "cluster_signature"
      = some (.str "16 , 5 , S") :=
  (clusterer_syslog_signature Unit
      { name := "test", output_field_name := "cluster_signature", rules := []
        events_processed := 0, ruleMatches := fun (_ : Unit) _ => true
        spsRun := fun _ _ => "S" }
      [("message", .str "raw"),
       ("syslog", .obj [("facility", .int 16)]),
       ("event", .obj [("severity", .int 5)])] rfl).1 rfl

/-- C10: every call to `process` increments `events_processed_count` by
exactly one — clusterable or not, rules or none — and a freshly constructed
instance starts at zero. -/
theorem clusterer_events_processed_counts (R : Type) (c : Clusterer R) (event : Event)
    (name : String) (rm : R → Event → Bool) (sps : Value → List R → String) :
    (c.process event).1.events_processed_count = c.events_processed_count + 1
    ∧ (Clusterer.init R name rm sps).events_processed_count = 0 := by
  constructor
  · unfold Clusterer.process
    split <;> rfl
  · rfl

/-!
Claims about the pseudonymizer pipeline.
-/

/-- Inserting a pseudonym stores its timestamp. -/
theorem cacheLookup_cacheInsert_self (cache : PseudoCache) (p : String) (t : Nat) :
    cacheLookup (cacheInsert cache p t) p = some t := by
  induction cache with
  | nil => simp [cacheInsert, cacheLookup]
  | cons e rest ih =>
    obtain ⟨p₁, t₁⟩ := e
    by_cases h : p₁ = p <;> simp [cacheInsert, cacheLookup, h, ih]

set_option maxRecDepth 40000 in
/-- C4 counterexample: the claim identifies the stored digest as the SHA-256
of the salt bytes followed by the UTF-8 cleartext, but that hash of the
scenario's salt and cleartext is not the digest the code stores
(`8d7e9ea6…`, asserted by `test_pseudonymization_of_field_succeeds`). -/
theorem pseudonymizer_salt_first_hash_counterexample :
    hashSaltThenText "a_secret_tasty_ingredient" "something"
      ≠ "8d7e9ea64b00d7df5dd7d4e1c9dde8a0b70815eea27bddb67738502f4ea0d2ee" := by
  decide

set_option maxRecDepth 100000 in
/-- C4 (amended): with salt `a_secret_tasty_ingredient` and the rule
`filter event_id: 1234, pseudonymize something: RE_WHOLE_FIELD`, the event
`event_id: 1234, something: "something"` has `something` replaced by exactly
`<pseudonym:8d7e9ea6…>` — the lower-hex SHA-256 of the UTF-8 cleartext
followed by the salt bytes — and exactly one pseudonym record with keys
`pseudonym` and `origin` is emitted. -/
theorem pseudonymizer_whole_field_succeeds (origin : String → String) (retention now : Nat) :
    "8d7e9ea64b00d7df5dd7d4e1c9dde8a0b70815eea27bddb67738502f4ea0d2ee"
      = hashTextThenSalt "a_secret_tasty_ingredient" "something"
    ∧ (pseudonymizeEvent "a_secret_tasty_ingredient" origin retention now
        [{ filter := .fieldEquals ["event_id"] (.int 1234)
           pseudonymize := [["something"]] }] [] []
        [("event_id", .int 1234), ("something", .str "something")]).1
      = [("event_id", .int 1234),
         ("something", .str
           "<pseudonym:8d7e9ea64b00d7df5dd7d4e1c9dde8a0b70815eea27bddb67738502f4ea0d2ee>")]
    ∧ (pseudonymizeEvent "a_secret_tasty_ingredient" origin retention now
        [{ filter := .fieldEquals ["event_id"] (.int 1234)
           pseudonymize := [["something"]] }] [] []
        [("event_id", .int 1234), ("something", .str "something")]).2.1
      = [[("pseudonym",
           "8d7e9ea64b00d7df5dd7d4e1c9dde8a0b70815eea27bddb67738502f4ea0d2ee"),
          ("origin", origin "something")]] :=
  ⟨rfl, rfl, rfl⟩

/-- Unfolding of `pseudonymizeValue` on a non-empty cleartext. -/
theorem pseudonymizeValue_eq (salt : String) (origin : String → String)
    (retention now : Nat) (cache : PseudoCache) (x : String) (hx : x ≠ "") :
    pseudonymizeValue salt origin retention now cache x =
      if cacheFresh cache (hashTextThenSalt salt x) now retention then
        (pseudonymMarker (hashTextThenSalt salt x), [], cache)
      else
        (pseudonymMarker (hashTextThenSalt salt x),
         [[("pseudonym", hashTextThenSalt salt x), ("origin", origin x)]],
         cacheInsert cache (hashTextThenSalt salt x) now) := by
  unfold pseudonymizeValue
  rw [if_neg hx]

/-- C5: once a cleartext's pseudonym has been emitted at time `t`, processing
the same cleartext again at time `t₂` still substitutes the marker but emits
no record while `t₂ − t` is within the retention window; once `t₂ − t`
exceeds the window, exactly one new record is emitted. -/
theorem pseudonymizer_cache_dedup (salt : String) (origin : String → String)
    (retention t t₂ : Nat) (cache : PseudoCache) (x : String)
    (hx : x ≠ "")
    (hfresh : cacheFresh cache (hashTextThenSalt salt x) t retention = false) :
    (pseudonymizeValue salt origin retention t cache x).2.1.length = 1
    ∧ (pseudonymizeValue salt origin retention t₂
        (pseudonymizeValue salt origin retention t cache x).2.2 x).1
      = pseudonymMarker (hashTextThenSalt salt x)
    ∧ (t₂ - t ≤ retention →
        (pseudonymizeValue salt origin retention t₂
          (pseudonymizeValue salt origin retention t cache x).2.2 x).2.1 = [])
    ∧ (retention < t₂ - t →
        (pseudonymizeValue salt origin retention t₂
          (pseudonymizeValue salt origin retention t cache x).2.2 x).2.1.length = 1) := by
  have hstep : pseudonymizeValue salt origin retention t cache x
      = (pseudonymMarker (hashTextThenSalt salt x),
         [[("pseudonym", hashTextThenSalt salt x), ("origin", origin x)]],
         cacheInsert cache (hashTextThenSalt salt x) t) := by
    rw [pseudonymizeValue_eq salt origin retention t cache x hx, hfresh]
    simp
  have hfresh₂ : cacheFresh (cacheInsert cache (hashTextThenSalt salt x) t)
      (hashTextThenSalt salt x) t₂ retention = decide (t₂ - t ≤ retention) := by
    unfold cacheFresh
    rw [cacheLookup_cacheInsert_self]
  refine ⟨by rw [hstep]; rfl, ?_, ?_, ?_⟩
  · rw [hstep]
    dsimp only
    rw [pseudonymizeValue_eq salt origin retention t₂ _ x hx, hfresh₂]
    by_cases h : t₂ - t ≤ retention <;> simp [h]
  · intro h
    rw [hstep]
    dsimp only
    rw [pseudonymizeValue_eq salt origin retention t₂ _ x hx, hfresh₂]
    simp [h]
  · intro h
    rw [hstep]
    dsimp only
    rw [pseudonymizeValue_eq salt origin retention t₂ _ x hx, hfresh₂]
    simp [Nat.not_le.mpr h]

/-- Witness for C5: with retention 5, an emission at time 0 suppresses the
record of a second run at time 3 and lets a run at time 10 emit exactly one. -/
theorem pseudonymizer_cache_dedup_witness :
    (pseudonymizeValue "s" (fun y => y) 5 3
        (pseudonymizeValue "s" (fun y => y) 5 0 [] "a").2.2 "a").2.1 = []
    ∧ (pseudonymizeValue "s" (fun y => y) 5 10
        (pseudonymizeValue "s" (fun y => y) 5 0 [] "a").2.2 "a").2.1.length = 1 :=
  ⟨(pseudonymizer_cache_dedup "s" (fun y => y) 5 0 3 [] "a" (by decide)
      (by rfl)).2.2.1 (by decide),
   (pseudonymizer_cache_dedup "s" (fun y => y) 5 0 10 [] "a" (by decide)
      (by rfl)).2.2.2 (by decide)⟩

set_option maxRecDepth 100000 in
/-- C6: the URL pathway keeps scheme, registrable domain (with its TLD), port
and query keys verbatim and pseudonymizes only userinfo, subdomain, path,
query values and fragment; concretely `https://www.test.de` becomes
`https://<pseudonym:63559e06…>.test.de` with scheme and `test.de` preserved,
and in `https://test.de:123/#test` the port `:123` survives while only the
fragment is replaced. -/
theorem pseudonymizer_url_structure :
    (∀ (salt : String) (u : UrlParts),
        (pseudonymizeUrlParts salt u).scheme = u.scheme
        ∧ (pseudonymizeUrlParts salt u).registrable_domain = u.registrable_domain
        ∧ (pseudonymizeUrlParts salt u).port = u.port
        ∧ (pseudonymizeUrlParts salt u).query.map Prod.fst = u.query.map Prod.fst)
    ∧ buildUrl (pseudonymizeUrlParts "a_secret_tasty_ingredient"
        { scheme := some "https", userinfo := none, subdomain := some "www"
          registrable_domain := "test.de", port := none, path := none
          query := [], fragment := none })
      = "https://<pseudonym:63559e069172188bb713ed6cc634683514c75d6294e90907be1ffcfdddd97865>.test.de"
    ∧ buildUrl (pseudonymizeUrlParts "a_secret_tasty_ingredient"
        { scheme := some "https", userinfo := none, subdomain := none
          registrable_domain := "test.de", port := some 123, path := some ""
          query := [], fragment := some "test" })
      = "https://test.de:123/#<pseudonym:d95ac3629be3245d3f5e836c059516ad04081d513d2888f546b783d178b02e5a>" :=
  ⟨fun salt u => ⟨rfl, rfl, rfl, by simp [pseudonymizeUrlParts]⟩, rfl, rfl⟩

set_option maxRecDepth 100000 in
/-- C7: a field that already holds a `<pseudonym:…>` marker is skipped by
later rules (stated for any event and rule state); in the duplicate
specific-plus-generic whole-field scenario the field ends up carrying the
pseudonym of the original cleartext `Not pseudonymized` (digest `df61c257…`)
with exactly one record emitted by the specific pass; and re-processing the
resulting event leaves it unchanged and emits nothing, so pseudonymization
is idempotent and never hashes a pseudonym again. -/
theorem pseudonymizer_idempotent (origin : String → String) (retention now now₂ : Nat) :
    (∀ (salt : String) (o : String → String) (r n : Nat) (event : Event)
        (records : List PseudonymRecord) (cache : PseudoCache)
        (path : List String) (m : String),
        lookupPath event path = some (.str m) → isPseudonymMarker m = true →
        processField salt o r n (event, records, cache) path = (event, records, cache))
    ∧ (pseudonymizeEvent "a_secret_tasty_ingredient" origin retention now
        [{ filter := .fieldEquals ["event_id"] (.int 1234)
           pseudonymize := [["something"]] }]
        [{ filter := .fieldEquals ["event_id"] (.int 1234)
           pseudonymize := [["something"]] }] []
        [("event_id", .int 1234), ("something", .str "Not pseudonymized")]).1
      = [("event_id", .int 1234),
         ("something", .str
           "<pseudonym:df61c2571842de3f30f4ca2d17a074fccda62945fceeb5636426a0a59347e596>")]
    ∧ (pseudonymizeEvent "a_secret_tasty_ingredient" origin retention now
        [{ filter := .fieldEquals ["event_id"] (.int 1234)
           pseudonymize := [["something"]] }]
        [{ filter := .fieldEquals ["event_id"] (.int 1234)
           pseudonymize := [["something"]] }] []
        [("event_id", .int 1234), ("something", .str "Not pseudonymized")]).2.1
      = [[("pseudonym",
           "df61c2571842de3f30f4ca2d17a074fccda62945fceeb5636426a0a59347e596"),
          ("origin", origin "Not pseudonymized")]]
    ∧ (pseudonymizeEvent "a_secret_tasty_ingredient" origin retention now₂
        [{ filter := .fieldEquals ["event_id"] (.int 1234)
           pseudonymize := [["something"]] }]
        [{ filter := .fieldEquals ["event_id"] (.int 1234)
           pseudonymize := [["something"]] }] []
        [("event_id", .int 1234),
         ("something", .str
           "<pseudonym:df61c2571842de3f30f4ca2d17a074fccda62945fceeb5636426a0a59347e596>")]).1
      = [("event_id", .int 1234),
         ("something", .str
           "<pseudonym:df61c2571842de3f30f4ca2d17a074fccda62945fceeb5636426a0a59347e596>")]
    ∧ (pseudonymizeEvent "a_secret_tasty_ingredient" origin retention now₂
        [{ filter := .fieldEquals ["event_id"] (.int 1234)
           pseudonymize := [["something"]] }]
        [{ filter := .fieldEquals ["event_id"] (.int 1234)
           pseudonymize := [["something"]] }] []
        [("event_id", .int 1234),
         ("something", .str
           "<pseudonym:df61c2571842de3f30f4ca2d17a074fccda62945fceeb5636426a0a59347e596>")]).2.1
      = [] := by
  refine ⟨?_, rfl, rfl, rfl, rfl⟩
  intro salt o r n event records cache path m h₁ h₂
  unfold processField
  dsimp only
  rw [h₁]
  dsimp only
  rw [if_pos h₂]

/-- Witness for C7: a field holding a well-formed marker is left untouched
with no record emitted. -/
theorem pseudonymizer_idempotent_witness :
    processField "s" (fun y => y) 1 0
        ([("f", .str
           "<pseudonym:aaaaaaaaaaaaaaaaaaaaaaaaaaaaaaaaaaaaaaaaaaaaaaaaaaaaaaaaaaaaaaaa>")],
         [], []) ["f"]
      = ([("f", .str
           "<pseudonym:aaaaaaaaaaaaaaaaaaaaaaaaaaaaaaaaaaaaaaaaaaaaaaaaaaaaaaaaaaaaaaaa>")],
         [], []) :=
  (pseudonymizer_idempotent (fun y => y) 0 0 0).1 "s" (fun y => y) 1 0
    [("f", .str
      "<pseudonym:aaaaaaaaaaaaaaaaaaaaaaaaaaaaaaaaaaaaaaaaaaaaaaaaaaaaaaaaaaaaaaaa>")]
    [] [] ["f"]
    "<pseudonym:aaaaaaaaaaaaaaaaaaaaaaaaaaaaaaaaaaaaaaaaaaaaaaaaaaaaaaaaaaaaaaaa>"
    rfl (by decide)

/-!
Claims about rule loading errors and the list_comparison rule.
-/

/-- C8 counterexample: a rule file whose content is malformed — i.e. whose
`create_rules_from_file` raises `InvalidRuleDefinitionError` — does NOT
surface that error from `Clusterer._load_rules_from_file`; the clusterer
catches it and raises `InvalidRuleFileError` for the file instead. -/
theorem clusterer_load_error_counterexample :
    loadRulesFromFile Unit "test-clusterer" "rules/broken.json"
        (.error (.invalidRuleDefinition "malformed rule content"))
      = .error (.invalidRuleFile "test-clusterer" "rules/broken.json")
    ∧ loadRulesFromFile Unit "test-clusterer" "rules/broken.json"
        (.error (.invalidRuleDefinition "malformed rule content"))
      ≠ .error (.invalidRuleDefinition "malformed rule content") :=
  ⟨rfl, by simp [loadRulesFromFile]⟩

/-- C8 (amended): during clusterer rule loading, malformed rule content
raises `InvalidRuleDefinitionError` inside `create_rules_from_file`, which
`_load_rules_from_file` catches and re-raises as `InvalidRuleFileError`
naming the processor and the offending file; an `InvalidRuleFileError` from
an I/O or JSON parse failure propagates unchanged; a successful load yields
the rules. -/
theorem clusterer_load_error_wrapping (R : Type) (name path msg n₂ p₂ : String)
    (rs : List R) :
    loadRulesFromFile R name path (.error (.invalidRuleDefinition msg))
      = .error (.invalidRuleFile name path)
    ∧ loadRulesFromFile R name path (.error (.invalidRuleFile n₂ p₂))
      = .error (.invalidRuleFile n₂ p₂)
    ∧ loadRulesFromFile R name path (.ok rs) = .ok rs :=
  ⟨rfl, rfl, rfl⟩

/-- Lists with the same members have the same finset of elements. -/
theorem toFinset_eq_of_mem_iff {α : Type _} [DecidableEq α] (a b : List α)
    (h : ∀ x, x ∈ a ↔ x ∈ b) : a.toFinset = b.toFinset := by
  ext x
  simp [List.mem_toFinset, h x]

/-- C9: two `ListComparisonRule`s are equal exactly when their filters and
their comparison contents (as sets) are equal — `check_field` and
`output_field` are not compared — and any two rules that are equal by
content have equal hash values. -/
theorem list_comparison_eq_hash (F : Type) (hashStr : String → Nat) (fRepr : F → String)
    (r₁ r₂ : ListComparisonRule F) :
    (ListComparisonRule.eq r₁ r₂ ↔
      r₁.filter = r₂.filter ∧ pySetEq r₁.compare_set r₂.compare_set)
    ∧ (ListComparisonRule.eq r₁ r₂ →
        ListComparisonRule.pyHash hashStr fRepr r₁
          = ListComparisonRule.pyHash hashStr fRepr r₂) := by
  refine ⟨Iff.rfl, fun h => ?_⟩
  obtain ⟨hf, hs⟩ := h
  unfold ListComparisonRule.pyHash ListComparisonRule.reprStr
  rw [hf]
  have hsets : (r₁.compare_set.map fun kv => kv.1 ++ "/" ++ kv.2).toFinset
      = (r₂.compare_set.map fun kv => kv.1 ++ "/" ++ kv.2).toFinset := by
    apply toFinset_eq_of_mem_iff
    intro x
    simp only [List.mem_map]
    constructor
    · rintro ⟨y, hy, rfl⟩
      exact ⟨y, (hs y).1 hy, rfl⟩
    · rintro ⟨y, hy, rfl⟩
      exact ⟨y, (hs y).2 hy, rfl⟩
  rw [hsets]

/-- Witness for C9: the same comparison members in a different insertion
order (and with a duplicate, and different check/output fields) hash alike. -/
theorem list_comparison_eq_hash_witness :
    ListComparisonRule.pyHash String.length (fun _ : Nat => "F")
        { filter := 0, compare_set := [("a", "x"), ("b", "y")]
          check_field := "c", output_field := "o" }
      = ListComparisonRule.pyHash String.length (fun _ : Nat => "F")
        { filter := 0, compare_set := [("b", "y"), ("a", "x"), ("a", "x")]
          check_field := "d", output_field := "p" } :=
  (list_comparison_eq_hash Nat String.length (fun _ => "F")
      { filter := 0, compare_set := [("a", "x"), ("b", "y")]
        check_field := "c", output_field := "o" }
      { filter := 0, compare_set := [("b", "y"), ("a", "x"), ("a", "x")]
        check_field := "d", output_field := "p" }).2
    ⟨rfl, by intro x; constructor <;> intro hx <;> simp_all <;> tauto⟩
